import Mathlib

/-!
Shallow embedding of the `reusable-logger-module` of the `nestjs-commons`
repository: the Winston sink-composition function `createWinstonConfig`
(with its option defaulting and the `ensureLogDirectory` effect), the
structured file format pipeline (`fileLogFormat`), and the logging facade
(`ReusableLoggerService` / `ReusableChildLogger`).

External collaborators (node `fs`, node `path`, the Winston transport
backend) are modelled only at their interface boundary: the filesystem is a
pair of oracles (`FsWorld`), `path.join` is plain separator joining (no
normalisation is exercised by the code), and a Winston transport is the
record of constructor options the source passes to it.
-/

namespace NestjsCommons

/-! ## A small JSON value model (for `JSON.stringify` in `fileLogFormat`) -/

/-- JSON values, as produced by the printf pipeline via `JSON.stringify`. -/
inductive JVal where
  | str (s : String)
  | num (n : Int)
  | bool (b : Bool)
  | null
  | arr (xs : List JVal)
  | obj (fields : List (String × JVal))

/-- One character of `JSON.stringify` string escaping (the escapes the
repository's log payloads can hit; further control-character escapes are
not exercised by any claim). -/
def escapeJsonChar (c : Char) : String :=
  if c = '"' then "\\\""
  else if c = '\\' then "\\\\"
  else if c = '\n' then "\\n"
  else if c = '\r' then "\\r"
  else if c = '\t' then "\\t"
  else String.singleton c

/-- `JSON.stringify` escaping of a whole string body. -/
def escapeJsonString (s : String) : String :=
  String.join (s.toList.map escapeJsonChar)

/-- A JSON string literal: quotes around the escaped body. -/
def jsonQuote (s : String) : String :=
  "\"" ++ escapeJsonString s ++ "\""

mutual

/-- `JSON.stringify` on a JSON value (no added whitespace, as in JS). -/
def serializeJVal : JVal → String
  | .str s => jsonQuote s
  | .num n => toString n
  | .bool b => if b then "true" else "false"
  | .null => "null"
  | .arr xs => "[" ++ serializeItems xs ++ "]"
  | .obj fs => "\x7b" ++ serializeFields fs ++ "\x7d"

/-- Comma-separated serialization of array items. -/
def serializeItems : List JVal → String
  | [] => ""
  | [x] => serializeJVal x
  | x :: y :: rest => serializeJVal x ++ "," ++ serializeItems (y :: rest)

/-- Comma-separated serialization of object fields in order. -/
def serializeFields : List (String × JVal) → String
  | [] => ""
  | [(k, v)] => jsonQuote k ++ ":" ++ serializeJVal v
  | (k, v) :: p :: rest =>
      jsonQuote k ++ ":" ++ serializeJVal v ++ "," ++ serializeFields (p :: rest)

end

/-! ## Options model (`ReusableLoggerOptions`, every field optional) -/

/-- The configuration record of `logger-options.interface.ts`; every field
is optional on the TS side, hence `Option` here. `maxFiles` is a JS
number, modelled as `Int`. -/
structure ReusableLoggerOptions where
  level : Option String := none
  enableConsole : Option Bool := none
  enableFile : Option Bool := none
  logDir : Option String := none
  maxFiles : Option Int := none
  maxSize : Option String := none
  datePattern : Option String := none
  zippedArchive : Option Bool := none
  nodeEnv : Option String := none
deriving DecidableEq, Repr

/-- JS `a || d` for an optional string `a`: the default is taken when the
value is absent (`undefined`) or falsy (the empty string). -/
def jsOrString (a : Option String) (d : String) : String :=
  match a with
  | some s => if s = "" then d else s
  | none => d

/-- JS `a || d` for an optional number `a`: the default is taken when the
value is absent (`undefined`) or falsy (`0`). -/
def jsOrInt (a : Option Int) (d : Int) : Int :=
  match a with
  | some n => if n = 0 then d else n
  | none => d

/-- The resolved configuration: the block of `const` bindings at the top of
`createWinstonConfig` (lines 84–92 of `reusable-winston.config.ts`). -/
structure ResolvedLoggerConfig where
  logLevel : String
  enableConsole : Bool
  enableFile : Bool
  logDir : String
  maxFiles : Int
  maxSize : String
  datePattern : String
  zippedArchive : Bool
  nodeEnv : String
deriving DecidableEq, Repr

/-- Option resolution exactly as the `const` block of `createWinstonConfig`:
`||` defaulting for `level`, `enableFile`, `logDir`, `maxFiles`, `maxSize`,
`datePattern`, `nodeEnv`; `!== undefined` checks for `enableConsole` and
`zippedArchive`. -/
def resolveOptions (options : ReusableLoggerOptions) : ResolvedLoggerConfig :=
  { logLevel := jsOrString options.level "info"
    enableConsole := options.enableConsole.getD true
    enableFile := options.enableFile.getD false
    logDir := jsOrString options.logDir "logs"
    maxFiles := jsOrInt options.maxFiles 10
    maxSize := jsOrString options.maxSize "10MB"
    datePattern := jsOrString options.datePattern "YYYY-MM-DD"
    zippedArchive := options.zippedArchive.getD true
    nodeEnv := jsOrString options.nodeEnv "development" }

/-! ## Transports and sink composition (`createWinstonConfig`) -/

/-- Which format pipeline a transport is bound to: the console pipeline
(`consoleFormat`: nest-like colorized text), the file pipeline
(`fileLogFormat`, modelled below), or the logger-level default
(`winston.format.combine(splat, simple)`). -/
inductive FormatRef where
  | consoleFormat
  | fileLogFormat
  | splatSimple
deriving DecidableEq, Repr

/-- The constructor options the source passes to a Winston transport.
`handleExceptions` / `handleRejections` default to `false` when the source
omits them. -/
inductive WinstonTransport where
  | console (level : String) (format : FormatRef)
      (handleExceptions : Bool) (handleRejections : Bool)
  | dailyRotateFile (filename : String) (level : String) (format : FormatRef)
      (datePattern : String) (zippedArchive : Bool) (maxSize : String)
      (maxFiles : Int) (handleExceptions : Bool) (handleRejections : Bool)
deriving DecidableEq, Repr

/-- The record `createWinstonConfig` returns (lines 223–228). -/
structure WinstonLoggerOptions where
  level : String
  format : FormatRef
  transports : List WinstonTransport
  exitOnError : Bool
deriving DecidableEq, Repr

/-- The filesystem oracle behind `fs.existsSync` / `fs.mkdirSync`:
whether a directory exists, and whether creating it succeeds. -/
structure FsWorld where
  dirExists : String → Bool
  mkdirOk : String → Bool

/-- JS `String.prototype.toUpperCase` for the ASCII level names the code
upper-cases: per-character uppercasing. -/
def toUpperCase (s : String) : String := ⟨s.data.map Char.toUpper⟩

/-- Model of node `path.join` for the joins the source performs (a
directory joined with a plain file name). -/
def pathJoin (a b : String) : String := a ++ "/" ++ b

/-- The diagnostic `ensureLogDirectory` prints when `fs.mkdirSync` throws. -/
def mkdirFailedDiagnostic (logDir : String) : String :=
  s!"创建日志目录失败: {logDir}。文件日志将被禁用或失败。"

/-- The diagnostic `createWinstonConfig` prints when `logDir` is falsy while
file logging is enabled (quotes of the original message elided). -/
def noLogDirDiagnostic : String :=
  "未指定日志目录 logDir，但启用了文件日志 enableFile。文件日志将被跳过。"

/-- `ensureLogDirectory` (lines 67–76): if the directory does not exist,
try to create it; a creation failure is caught and surfaced only as a
`console.error` diagnostic (returned here as the list of diagnostics; the
function never throws past its boundary). -/
def ensureLogDirectory (w : FsWorld) (logDir : String) : List String :=
  if !(w.dirExists logDir) then
    if w.mkdirOk logDir then [] else [mkdirFailedDiagnostic logDir]
  else []

/-- The guard of the debug file transport (line 207):
`!isProduction || logLevel === 'debug' || logLevel === 'verbose' ||
logLevel === 'silly'`. -/
def debugSinkCondition (r : ResolvedLoggerConfig) : Bool :=
  !(r.nodeEnv == "production") || r.logLevel == "debug"
    || r.logLevel == "verbose" || r.logLevel == "silly"

/-- `createWinstonConfig` (lines 83–229): resolve the options, then push a
console transport when console is enabled, and — when file logging is
enabled and `logDir` is truthy — after running `ensureLogDirectory`, push
the error / warn / info / combined file transports and, conditionally, the
debug transport. Returns the `console.error` diagnostics emitted during
composition together with the Winston logger options; the function is
total (composition raises nothing). -/
def createWinstonConfig (w : FsWorld) (options : ReusableLoggerOptions) :
    List String × WinstonLoggerOptions :=
  let r := resolveOptions options
  let isProduction : Bool := r.nodeEnv == "production"
  let consoleTransports : List WinstonTransport :=
    if r.enableConsole then
      [.console (if isProduction then "info" else r.logLevel)
        .consoleFormat true true]
    else []
  let filePart : List String × List WinstonTransport :=
    if r.enableFile then
      if r.logDir = "" then
        ([noLogDirDiagnostic], [])
      else
        (ensureLogDirectory w r.logDir,
          [.dailyRotateFile (pathJoin r.logDir "error-%DATE%.log") "error"
              .fileLogFormat r.datePattern r.zippedArchive r.maxSize
              (r.maxFiles * 2) true true,
            .dailyRotateFile (pathJoin r.logDir "warn-%DATE%.log") "warn"
              .fileLogFormat r.datePattern r.zippedArchive r.maxSize
              r.maxFiles false false,
            .dailyRotateFile (pathJoin r.logDir "info-%DATE%.log") "info"
              .fileLogFormat r.datePattern r.zippedArchive r.maxSize
              r.maxFiles false false,
            .dailyRotateFile (pathJoin r.logDir "combined-%DATE%.log") r.logLevel
              .fileLogFormat r.datePattern r.zippedArchive r.maxSize
              r.maxFiles false false]
          ++ (if debugSinkCondition r then
                [.dailyRotateFile (pathJoin r.logDir "debug-%DATE%.log") "debug"
                  .fileLogFormat r.datePattern r.zippedArchive r.maxSize
                  r.maxFiles false false]
              else []))
    else ([], [])
  (filePart.1,
    { level := r.logLevel
      format := .splatSimple
      transports := consoleTransports ++ filePart.2
      exitOnError := false })

/-- Is a transport a rotating-file sink? -/
def isFileTransport : WinstonTransport → Bool
  | .dailyRotateFile .. => true
  | .console .. => false

/-- Number of file sinks in a transport list. -/
def countFileSinks (ts : List WinstonTransport) : Nat :=
  ts.countP (fun t => isFileTransport t)

/-- The severity floors of the console sinks in a transport list, in order. -/
def consoleFloors (ts : List WinstonTransport) : List String :=
  ts.filterMap (fun t =>
    match t with
    | .console level _ _ _ => some level
    | .dailyRotateFile .. => none)

/-- The `maxFiles` retention counts of the file sinks whose filename is
`fn`, in order. -/
def retentionsFor (fn : String) (ts : List WinstonTransport) : List Int :=
  ts.filterMap (fun t =>
    match t with
    | .dailyRotateFile filename _ _ _ _ _ maxFiles _ _ =>
        if filename = fn then some maxFiles else none
    | .console .. => none)

/-- A filesystem in which every directory already exists. -/
def allOkWorld : FsWorld := ⟨fun _ => true, fun _ => true⟩

/-- A filesystem in which the log directory is missing and `fs.mkdirSync`
throws: the directory-ensure effect fails. -/
def mkdirFailsWorld : FsWorld := ⟨fun _ => false, fun _ => false⟩

/-! ## The structured file format pipeline (`fileLogFormat`, lines 96–118)

The upstream formats (`timestamp`, `errors({stack:true})`, `splat`, `json`)
populate the Winston info object; the `printf` callback destructures it into
`timestamp`, `level`, `message`, `context`, `stack` and the rest (`...meta`),
builds a plain object and returns `JSON.stringify` of it. `FileLogInfo` is
the post-destructure view of the info object. -/

/-- The destructured Winston info object as seen by the `printf` callback of
`fileLogFormat`: the five named fields plus the rest-object `meta` (an
ordered list of key/value fields). -/
structure FileLogInfo where
  timestamp : String
  level : String
  message : String
  context : Option String := none
  stack : Option String := none
  meta : List (String × JVal) := []

/-- JS object spread `{...base, ...ext}`: keys of `base` keep their position
(with the value from `ext` when `ext` also has the key), and keys only in
`ext` are appended in `ext` order. -/
def spreadMerge (base ext : List (String × JVal)) : List (String × JVal) :=
  base.map (fun p => (p.1, ((List.lookup p.1 ext).getD p.2)))
    ++ ext.filter (fun p => (List.lookup p.1 base).isNone)

/-- The object the `printf` callback of `fileLogFormat` builds, as an
ordered field list: `timestamp`, upper-cased `level`, `message`; then
`context` when truthy; then the rest fields spread in when non-empty; then
`stack` when truthy. -/
def fileLogEntry (info : FileLogInfo) : List (String × JVal) :=
  let base : List (String × JVal) :=
    [("timestamp", .str info.timestamp),
      ("level", .str (toUpperCase info.level)),
      ("message", .str info.message)]
  let withContext :=
    match info.context with
    | some c => if c = "" then base else base ++ [("context", .str c)]
    | none => base
  let withMeta :=
    if info.meta.length > 0 then spreadMerge withContext info.meta
    else withContext
  match info.stack with
  | some st => if st = "" then withMeta else withMeta ++ [("stack", .str st)]
  | none => withMeta

/-- The string `fileLogFormat`'s printf returns: `JSON.stringify` of the
entry object. -/
def fileLogFormat (info : FileLogInfo) : String :=
  serializeJVal (.obj (fileLogEntry info))

/-! ## The logging facade (`ReusableLoggerService`, `ReusableChildLogger`)

The facade methods call `this.logger.<level>(message, metaObject)` on the
shared Winston handle; a call is modelled as the `LogEvent` record it hands
to the backend. The Winston handle itself is opaque: only its identity
matters (sharing between parent and child), so it is modelled as a `Nat`
id. -/

/-- The event a facade method hands to the Winston backend: the method's
severity, the message, and the meta object (`context`, the wrapped `meta`
rest-arguments array, and — for `error` — optionally `stack` or `trace`). -/
structure LogEvent where
  level : String
  message : String
  context : Option String
  meta : List JVal
  stack : Option String := none
  trace : Option String := none

/-- JS `a || b` on optional strings (the `context || this.currentContext`
fallback): `a` wins unless it is absent or the empty string. -/
def jsOrOpt (a b : Option String) : Option String :=
  match a with
  | some s => if s = "" then b else some s
  | none => b

/-- A JS `Error` as far as the facade reads it: `name`, display `message`,
and the stack trace text `stack`. -/
structure JsError where
  name : String
  message : String
  stack : String
deriving DecidableEq, Repr

/-- The `trace` argument of `error(message, trace?, ...)`: absent, a
string, or an `Error` object. -/
inductive TraceArg where
  | undef
  | str (s : String)
  | err (e : JsError)
deriving DecidableEq, Repr

/-- `ReusableLoggerService`: the injected Winston handle (opaque id) and
the mutable `currentContext` (absent until `setContext` is called). -/
structure ReusableLoggerService where
  logger : Nat
  currentContext : Option String := none
deriving DecidableEq, Repr

namespace ReusableLoggerService

/-- `setContext(context)`: replace the instance's fallback context. -/
def setContext (s : ReusableLoggerService) (context : String) :
    ReusableLoggerService :=
  { s with currentContext := some context }

/-- `log(message, context?, ...meta)`: info-severity event with the
explicit context falling back to `currentContext`. -/
def log (s : ReusableLoggerService) (message : String)
    (context : Option String := none) (meta : List JVal := []) : LogEvent :=
  { level := "info", message, context := jsOrOpt context s.currentContext, meta }

/-- `error(message, trace?, context?, ...meta)`: error-severity event; an
`Error` trace contributes its `stack`, a non-empty string trace is kept as
the pre-formatted `trace` field, anything else contributes nothing. -/
def error (s : ReusableLoggerService) (message : String)
    (trace : TraceArg := .undef) (context : Option String := none)
    (meta : List JVal := []) : LogEvent :=
  let base : LogEvent :=
    { level := "error", message, context := jsOrOpt context s.currentContext,
      meta }
  match trace with
  | .err e => { base with stack := some e.stack }
  | .str t => if t.length > 0 then { base with trace := some t } else base
  | .undef => base

/-- `warn(message, context?, ...meta)`. -/
def warn (s : ReusableLoggerService) (message : String)
    (context : Option String := none) (meta : List JVal := []) : LogEvent :=
  { level := "warn", message, context := jsOrOpt context s.currentContext, meta }

/-- `debug(message, context?, ...meta)`. -/
def debug (s : ReusableLoggerService) (message : String)
    (context : Option String := none) (meta : List JVal := []) : LogEvent :=
  { level := "debug", message, context := jsOrOpt context s.currentContext, meta }

/-- `verbose(message, context?, ...meta)`. -/
def verbose (s : ReusableLoggerService) (message : String)
    (context : Option String := none) (meta : List JVal := []) : LogEvent :=
  { level := "verbose", message, context := jsOrOpt context s.currentContext,
    meta }

end ReusableLoggerService

/-- `ReusableChildLogger`: the parent's Winston handle plus an immutable
context fixed at construction. -/
structure ReusableChildLogger where
  winstonLoggerInstance : Nat
  context : String
deriving DecidableEq, Repr

/-- `createChildLogger(context)`: a child bound to `context`, sharing
`this.logger`. -/
def ReusableLoggerService.createChildLogger (s : ReusableLoggerService)
    (context : String) : ReusableChildLogger :=
  { winstonLoggerInstance := s.logger, context := context }

namespace ReusableChildLogger

/-- Child `log(message, ...meta)`: always the child's own context. -/
def log (c : ReusableChildLogger) (message : String)
    (meta : List JVal := []) : LogEvent :=
  { level := "info", message, context := some c.context, meta }

/-- Child `error(message, trace?, ...meta)`: same trace handling as the
parent, context always the child's own. -/
def error (c : ReusableChildLogger) (message : String)
    (trace : TraceArg := .undef) (meta : List JVal := []) : LogEvent :=
  let base : LogEvent :=
    { level := "error", message, context := some c.context, meta }
  match trace with
  | .err e => { base with stack := some e.stack }
  | .str t => if t.length > 0 then { base with trace := some t } else base
  | .undef => base

/-- Child `warn(message, ...meta)`. -/
def warn (c : ReusableChildLogger) (message : String)
    (meta : List JVal := []) : LogEvent :=
  { level := "warn", message, context := some c.context, meta }

/-- Child `debug(message, ...meta)`. -/
def debug (c : ReusableChildLogger) (message : String)
    (meta : List JVal := []) : LogEvent :=
  { level := "debug", message, context := some c.context, meta }

/-- Child `verbose(message, ...meta)`. -/
def verbose (c : ReusableChildLogger) (message : String)
    (meta : List JVal := []) : LogEvent :=
  { level := "verbose", message, context := some c.context, meta }

end ReusableChildLogger

/-! ## Helper lemmas -/

/-- `path.join d a` determines `a`: joining the same directory with two
file names gives equal paths only for equal names. -/
theorem pathJoin_eq_iff {d a b : String} : pathJoin d a = pathJoin d b ↔ a = b := by
  constructor
  · intro h
    have h2 := congrArg String.data h
    simp only [pathJoin, String.data_append, List.append_assoc] at h2
    exact String.ext (List.append_cancel_left (List.append_cancel_left h2))
  · intro h
    rw [h]

/-- The resolved log directory is never the empty string. -/
theorem resolveOptions_logDir_ne_empty (o : ReusableLoggerOptions) :
    (resolveOptions o).logDir ≠ "" := by
  simp only [resolveOptions, jsOrString]
  cases o.logDir with
  | none => decide
  | some s =>
    by_cases hs : s = "" <;> simp [hs]

/-- A key that is not among an association list's keys looks up to `none`. -/
theorem lookup_eq_none_of_not_mem {β : Type} {k : String}
    {l : List (String × β)} (h : k ∉ l.map Prod.fst) :
    List.lookup k l = none := by
  induction l with
  | nil => rfl
  | cons p rest ih =>
    simp only [List.map_cons, List.mem_cons, not_or] at h
    simp [List.lookup, beq_eq_false_iff_ne.mpr h.1, ih h.2]

/-- JS object spread degenerates to plain concatenation when the spread-in
keys are disjoint from the base keys. -/
theorem spreadMerge_of_disjoint {base ext : List (String × JVal)}
    (h : ∀ k ∈ ext.map Prod.fst, k ∉ base.map Prod.fst) :
    spreadMerge base ext = base ++ ext := by
  unfold spreadMerge
  have h1 : base.map (fun p => (p.1, ((List.lookup p.1 ext).getD p.2))) = base := by
    have : ∀ p ∈ base, (p.1, ((List.lookup p.1 ext).getD p.2)) = p := by
      intro p hp
      have hnot : p.1 ∉ ext.map Prod.fst := by
        intro hk
        exact h _ hk (List.mem_map_of_mem Prod.fst hp)
      simp [lookup_eq_none_of_not_mem hnot]
    calc base.map (fun p => (p.1, ((List.lookup p.1 ext).getD p.2)))
        = base.map id := List.map_congr_left this
      _ = base := List.map_id base
  have h2 : ext.filter (fun p => (List.lookup p.1 base).isNone) = ext := by
    rw [List.filter_eq_self]
    intro p hp
    have hnot : p.1 ∉ base.map Prod.fst := h _ (List.mem_map_of_mem Prod.fst hp)
    simp [lookup_eq_none_of_not_mem hnot]
  rw [h1, h2]

/-- The debug-sink guard, read as a proposition. -/
theorem debugSinkCondition_iff (r : ResolvedLoggerConfig) :
    debugSinkCondition r = true ↔
      (r.nodeEnv ≠ "production" ∨ r.logLevel = "debug" ∨
        r.logLevel = "verbose" ∨ r.logLevel = "silly") := by
  simp [debugSinkCondition]
  tauto

/-! ## Claim theorems -/

/-- **C2.** For every configuration with console enabled: in production the
composed console sink's severity floor is `"info"` whatever the configured
floor; outside production it is the configured floor. -/
theorem c2_console_floor_production_forced_info
    (w : FsWorld) (o : ReusableLoggerOptions)
    (hc : (resolveOptions o).enableConsole = true) :
    ((resolveOptions o).nodeEnv = "production" →
        consoleFloors (createWinstonConfig w o).2.transports = ["info"]) ∧
    ((resolveOptions o).nodeEnv ≠ "production" →
        consoleFloors (createWinstonConfig w o).2.transports =
          [(resolveOptions o).logLevel]) := by
  have hd := resolveOptions_logDir_ne_empty o
  constructor <;> intro hp <;>
    simp [createWinstonConfig, consoleFloors, hc, hd, hp,
      List.filterMap_append] <;>
    split <;> simp_all

/-- **C3.** With file logging enabled, the debug-tier file sink is present
in the composed sink list iff the environment is not `"production"` or the
configured floor is `debug`/`verbose`/`silly` (and when present it is a
single sink retaining `maxFiles`). -/
theorem c3_debug_sink_presence_iff (w : FsWorld) (o : ReusableLoggerOptions)
    (hf : (resolveOptions o).enableFile = true) :
    retentionsFor (pathJoin (resolveOptions o).logDir "debug-%DATE%.log")
        (createWinstonConfig w o).2.transports =
      (if (resolveOptions o).nodeEnv ≠ "production" ∨
          (resolveOptions o).logLevel = "debug" ∨
          (resolveOptions o).logLevel = "verbose" ∨
          (resolveOptions o).logLevel = "silly"
       then [(resolveOptions o).maxFiles] else []) := by
  have hd := resolveOptions_logDir_ne_empty o
  by_cases hP : ((resolveOptions o).nodeEnv ≠ "production" ∨
      (resolveOptions o).logLevel = "debug" ∨
      (resolveOptions o).logLevel = "verbose" ∨
      (resolveOptions o).logLevel = "silly")
  · rw [if_pos hP]
    have hdbg : debugSinkCondition (resolveOptions o) = true :=
      (debugSinkCondition_iff _).mpr hP
    cases hc2 : (resolveOptions o).enableConsole <;>
      simp [createWinstonConfig, retentionsFor, hd, hf, hdbg, hc2,
        List.filterMap_append, pathJoin_eq_iff]
  · rw [if_neg hP]
    have hdbg : ¬ debugSinkCondition (resolveOptions o) = true :=
      fun h => hP ((debugSinkCondition_iff _).mp h)
    cases hc2 : (resolveOptions o).enableConsole <;>
      simp [createWinstonConfig, retentionsFor, hd, hf, hdbg, hc2,
        List.filterMap_append, pathJoin_eq_iff]

/-- **C4.** With file logging enabled and a configured (non-falsy)
`maxFiles = n`, the error-tier file sink retains exactly `2 * n` rotated
files while the warn, info, combined and (when emitted) debug tiers each
retain exactly `n`. -/
theorem c4_error_tier_double_retention (w : FsWorld)
    (o : ReusableLoggerOptions) (n : Int) (hmf : o.maxFiles = some n)
    (hn : n ≠ 0) (hf : (resolveOptions o).enableFile = true) :
    retentionsFor (pathJoin (resolveOptions o).logDir "error-%DATE%.log")
        (createWinstonConfig w o).2.transports = [2 * n] ∧
    retentionsFor (pathJoin (resolveOptions o).logDir "warn-%DATE%.log")
        (createWinstonConfig w o).2.transports = [n] ∧
    retentionsFor (pathJoin (resolveOptions o).logDir "info-%DATE%.log")
        (createWinstonConfig w o).2.transports = [n] ∧
    retentionsFor (pathJoin (resolveOptions o).logDir "combined-%DATE%.log")
        (createWinstonConfig w o).2.transports = [n] ∧
    (debugSinkCondition (resolveOptions o) = true →
      retentionsFor (pathJoin (resolveOptions o).logDir "debug-%DATE%.log")
        (createWinstonConfig w o).2.transports = [n]) := by
  have hd := resolveOptions_logDir_ne_empty o
  have hm : (resolveOptions o).maxFiles = n := by
    simp [resolveOptions, jsOrInt, hmf, hn]
  refine ⟨?_, ?_, ?_, ?_, fun hdbg => ?_⟩ <;>
    cases hc2 : (resolveOptions o).enableConsole <;>
    by_cases hdbg2 : debugSinkCondition (resolveOptions o) = true <;>
    simp [createWinstonConfig, retentionsFor, hd, hf, hm, hc2, hdbg2,
      List.filterMap_append, pathJoin_eq_iff] <;>
    first
      | omega
      | simp_all

/-- **C5.** The composed sink list has the exact shape and order: one
console sink first when console is enabled (none otherwise); then, when
file logging is enabled, the file sinks in the fixed order error (floor
`error`, double retention), warn (floor `warn`), info (floor `info`),
combined (floor = the configured minimum severity) and conditionally
debug; with file logging disabled there are no file sinks. -/
theorem c5_sink_list_shape (w : FsWorld) (o : ReusableLoggerOptions) :
    (createWinstonConfig w o).2.transports =
      (if (resolveOptions o).enableConsole then
        [.console
          (if (resolveOptions o).nodeEnv = "production" then "info"
            else (resolveOptions o).logLevel) .consoleFormat true true]
      else [])
      ++ (if (resolveOptions o).enableFile then
            [.dailyRotateFile
                (pathJoin (resolveOptions o).logDir "error-%DATE%.log") "error"
                .fileLogFormat (resolveOptions o).datePattern
                (resolveOptions o).zippedArchive (resolveOptions o).maxSize
                ((resolveOptions o).maxFiles * 2) true true,
              .dailyRotateFile
                (pathJoin (resolveOptions o).logDir "warn-%DATE%.log") "warn"
                .fileLogFormat (resolveOptions o).datePattern
                (resolveOptions o).zippedArchive (resolveOptions o).maxSize
                (resolveOptions o).maxFiles false false,
              .dailyRotateFile
                (pathJoin (resolveOptions o).logDir "info-%DATE%.log") "info"
                .fileLogFormat (resolveOptions o).datePattern
                (resolveOptions o).zippedArchive (resolveOptions o).maxSize
                (resolveOptions o).maxFiles false false,
              .dailyRotateFile
                (pathJoin (resolveOptions o).logDir "combined-%DATE%.log")
                (resolveOptions o).logLevel
                .fileLogFormat (resolveOptions o).datePattern
                (resolveOptions o).zippedArchive (resolveOptions o).maxSize
                (resolveOptions o).maxFiles false false]
            ++ (if debugSinkCondition (resolveOptions o) then
                  [.dailyRotateFile
                    (pathJoin (resolveOptions o).logDir "debug-%DATE%.log")
                    "debug" .fileLogFormat (resolveOptions o).datePattern
                    (resolveOptions o).zippedArchive (resolveOptions o).maxSize
                    (resolveOptions o).maxFiles false false]
                else [])
          else []) := by
  have hd := resolveOptions_logDir_ne_empty o
  cases hc2 : (resolveOptions o).enableConsole <;>
  cases hf2 : (resolveOptions o).enableFile <;>
    simp [createWinstonConfig, hd, hc2, hf2]

/-- **C1, counterexample.** A file-enabled production configuration whose
directory-ensure effect fails: the ensure effect does surface its
diagnostic, yet the composed sink list still contains 4 file sinks — not
zero as the claim states (the code pushes the file transports regardless
of the ensure outcome). -/
theorem c1_counterexample :
    ensureLogDirectory mkdirFailsWorld
        (resolveOptions
          { enableFile := some true, nodeEnv := some "production" }).logDir =
      [mkdirFailedDiagnostic "logs"] ∧
    countFileSinks (createWinstonConfig mkdirFailsWorld
        { enableFile := some true, nodeEnv := some "production" }).2.transports
      = 4 := by
  constructor <;> rfl

/-- **C1, amended.** For every file-enabled configuration whose log
directory is missing and cannot be created, sink composition surfaces
exactly one diagnostic and raises nothing (it is total, and the composed
logger keeps the `exitOnError := false` policy); the console sink is still
present when console is enabled; but the file sinks are *not* skipped —
all 4 (or 5, with the debug tier) are still composed, and their failure is
left to the transport backend at write time. -/
theorem c1_dir_failure_diagnostic_but_file_sinks_composed
    (w : FsWorld) (o : ReusableLoggerOptions)
    (hf : (resolveOptions o).enableFile = true)
    (hex : w.dirExists (resolveOptions o).logDir = false)
    (hmk : w.mkdirOk (resolveOptions o).logDir = false) :
    (createWinstonConfig w o).1 =
      [mkdirFailedDiagnostic (resolveOptions o).logDir] ∧
    consoleFloors (createWinstonConfig w o).2.transports =
      (if (resolveOptions o).enableConsole then
        [if (resolveOptions o).nodeEnv = "production" then "info"
          else (resolveOptions o).logLevel]
      else []) ∧
    countFileSinks (createWinstonConfig w o).2.transports =
      (if debugSinkCondition (resolveOptions o) then 5 else 4) ∧
    (createWinstonConfig w o).2.exitOnError = false := by
  have hd := resolveOptions_logDir_ne_empty o
  refine ⟨?_, ?_, ?_, ?_⟩ <;>
    cases hc2 : (resolveOptions o).enableConsole <;>
    by_cases hdbg : debugSinkCondition (resolveOptions o) = true <;>
    simp [createWinstonConfig, ensureLogDirectory, countFileSinks,
      consoleFloors, isFileTransport, hd, hf, hex, hmk, hc2, hdbg,
      List.filterMap_append]

/-- **C9, counterexample.** `level` supplied as the (falsy) empty string is
a present field, yet resolution replaces it with the default `"info"`
instead of keeping it. -/
theorem c9_counterexample :
    ({ level := some "" } : ReusableLoggerOptions).level = some "" ∧
    (resolveOptions { level := some "" }).logLevel = "info" := by
  constructor <;> rfl

/-- **C9, amended.** Resolution fills every absent field with its
documented default (floor `info`, console on, file off, directory `logs`,
10 retained files, size `"10MB"`, pattern `"YYYY-MM-DD"`, compression on,
environment `development`) and never raises (it is a total function);
present fields are kept, *except* that falsy present values — the empty
string for `level`/`logDir`/`maxSize`/`datePattern`/`nodeEnv`, `0` for
`maxFiles` — are likewise replaced by their defaults (`enableConsole` and
`zippedArchive`, checked against `undefined` only, keep an explicit
`false`). -/
theorem c9_resolution_defaults (o : ReusableLoggerOptions) :
    (o.level = none → (resolveOptions o).logLevel = "info") ∧
    (o.enableConsole = none → (resolveOptions o).enableConsole = true) ∧
    (o.enableFile = none → (resolveOptions o).enableFile = false) ∧
    (o.logDir = none → (resolveOptions o).logDir = "logs") ∧
    (o.maxFiles = none → (resolveOptions o).maxFiles = 10) ∧
    (o.maxSize = none → (resolveOptions o).maxSize = "10MB") ∧
    (o.datePattern = none → (resolveOptions o).datePattern = "YYYY-MM-DD") ∧
    (o.zippedArchive = none → (resolveOptions o).zippedArchive = true) ∧
    (o.nodeEnv = none → (resolveOptions o).nodeEnv = "development") ∧
    (∀ s, s ≠ "" → o.level = some s → (resolveOptions o).logLevel = s) ∧
    (∀ b, o.enableConsole = some b → (resolveOptions o).enableConsole = b) ∧
    (∀ b, o.enableFile = some b → (resolveOptions o).enableFile = b) ∧
    (∀ s, s ≠ "" → o.logDir = some s → (resolveOptions o).logDir = s) ∧
    (∀ n, n ≠ 0 → o.maxFiles = some n → (resolveOptions o).maxFiles = n) ∧
    (∀ s, s ≠ "" → o.maxSize = some s → (resolveOptions o).maxSize = s) ∧
    (∀ s, s ≠ "" → o.datePattern = some s →
      (resolveOptions o).datePattern = s) ∧
    (∀ b, o.zippedArchive = some b → (resolveOptions o).zippedArchive = b) ∧
    (∀ s, s ≠ "" → o.nodeEnv = some s → (resolveOptions o).nodeEnv = s) ∧
    (o.level = some "" → (resolveOptions o).logLevel = "info") ∧
    (o.logDir = some "" → (resolveOptions o).logDir = "logs") ∧
    (o.maxFiles = some 0 → (resolveOptions o).maxFiles = 10) ∧
    (o.maxSize = some "" → (resolveOptions o).maxSize = "10MB") ∧
    (o.datePattern = some "" →
      (resolveOptions o).datePattern = "YYYY-MM-DD") ∧
    (o.nodeEnv = some "" → (resolveOptions o).nodeEnv = "development") := by
  refine ⟨?_, ?_, ?_, ?_, ?_, ?_, ?_, ?_, ?_, ?_, ?_, ?_, ?_, ?_, ?_, ?_,
    ?_, ?_, ?_, ?_, ?_, ?_, ?_, ?_⟩ <;>
    intros <;> simp_all [resolveOptions, jsOrString, jsOrInt]

/-- **C10.** Defaulting treats falsy-but-present values like absent ones
(empty strings for `level`/`logDir`/`maxSize`/`datePattern` and `0` for
`maxFiles` become their defaults); in particular the resolved `logDir` is
never empty, so the branch that would skip the file sinks for a missing
log directory is never taken: whenever file logging is enabled, the
diagnostics are exactly those of the directory-ensure effect and at least
the 4 unconditional file sinks are composed. -/
theorem c10_falsy_defaulting_and_unreachable_skip
    (w : FsWorld) (o : ReusableLoggerOptions) :
    (o.level = some "" → (resolveOptions o).logLevel = "info") ∧
    (o.logDir = some "" → (resolveOptions o).logDir = "logs") ∧
    (o.maxSize = some "" → (resolveOptions o).maxSize = "10MB") ∧
    (o.datePattern = some "" →
      (resolveOptions o).datePattern = "YYYY-MM-DD") ∧
    (o.maxFiles = some 0 → (resolveOptions o).maxFiles = 10) ∧
    (resolveOptions o).logDir ≠ "" ∧
    ((resolveOptions o).enableFile = true →
      (createWinstonConfig w o).1 =
        ensureLogDirectory w (resolveOptions o).logDir ∧
      4 ≤ countFileSinks (createWinstonConfig w o).2.transports) := by
  have hd := resolveOptions_logDir_ne_empty o
  refine ⟨fun h => ?_, fun h => ?_, fun h => ?_, fun h => ?_, fun h => ?_,
    hd, fun hf => ⟨?_, ?_⟩⟩
  · simp [resolveOptions, jsOrString, h]
  · simp [resolveOptions, jsOrString, h]
  · simp [resolveOptions, jsOrString, h]
  · simp [resolveOptions, jsOrString, h]
  · simp [resolveOptions, jsOrInt, h]
  · cases hc2 : (resolveOptions o).enableConsole <;>
      simp [createWinstonConfig, hd, hf, hc2]
  · cases hc2 : (resolveOptions o).enableConsole <;>
      by_cases hdbg : debugSinkCondition (resolveOptions o) = true <;>
      simp [createWinstonConfig, countFileSinks, isFileTransport, hd, hf,
        hc2, hdbg]

/-- **C6.** For every Winston info record reaching the file pipeline (its
rest-fields, by JS destructuring, never carry the five named keys, and a
present context/stack is a non-empty string), the structured pipeline
emits exactly the JSON serialization of one object whose `level` field is
the upper-cased severity and whose `message` field is the original
message, with field order `timestamp`, `level`, `message`, then `context`
iff a context is present, then the metadata fields in order, then `stack`
iff a trace was attached. -/
theorem c6_file_pipeline_json_shape (info : FileLogInfo)
    (hmk : ∀ k ∈ info.meta.map Prod.fst,
      k ∉ ["timestamp", "level", "message", "context", "stack"])
    (hc : info.context ≠ some "") (hs : info.stack ≠ some "") :
    fileLogFormat info = serializeJVal (.obj (fileLogEntry info)) ∧
    fileLogEntry info =
      ([("timestamp", .str info.timestamp),
        ("level", .str (toUpperCase info.level)),
        ("message", .str info.message)]
      ++ (match info.context with
          | some c => [("context", JVal.str c)]
          | none => [])
      ++ info.meta
      ++ (match info.stack with
          | some st => [("stack", JVal.str st)]
          | none => [])) ∧
    List.lookup "level" (fileLogEntry info) =
      some (.str (toUpperCase info.level)) ∧
    List.lookup "message" (fileLogEntry info) = some (.str info.message) := by
  have hshape : fileLogEntry info =
      ([("timestamp", .str info.timestamp),
        ("level", .str (toUpperCase info.level)),
        ("message", .str info.message)]
      ++ (match info.context with
          | some c => [("context", JVal.str c)]
          | none => [])
      ++ info.meta
      ++ (match info.stack with
          | some st => [("stack", JVal.str st)]
          | none => [])) := by
    have hms : ∀ (base : List (String × JVal)),
        base.map Prod.fst ⊆ ["timestamp", "level", "message", "context"] →
        (if info.meta.length > 0 then spreadMerge base info.meta else base)
          = base ++ info.meta := by
      intro base hb
      by_cases hm : info.meta.length > 0
      · rw [if_pos hm]
        apply spreadMerge_of_disjoint
        intro k hk hkb
        have h5 := hmk k hk
        have h4 := hb hkb
        simp only [List.mem_cons, List.not_mem_nil, or_false] at h4 h5
        tauto
      · rw [if_neg hm]
        have hnil : info.meta = [] := by
          have : info.meta.length = 0 := Nat.eq_zero_of_not_pos hm
          simpa using this
        rw [hnil, List.append_nil]
    cases hctx : info.context with
    | none =>
      cases hst : info.stack with
      | none =>
        simp [fileLogEntry, hctx, hst, hms]
      | some st =>
        have hst' : ¬ st = "" := fun h => hs (by rw [hst, h])
        simp [fileLogEntry, hctx, hst, hst', hms]
    | some c =>
      have hc' : ¬ c = "" := fun h => hc (by rw [hctx, h])
      cases hst : info.stack with
      | none =>
        simp [fileLogEntry, hctx, hst, hc', hms]
      | some st =>
        have hst' : ¬ st = "" := fun h => hs (by rw [hst, h])
        simp [fileLogEntry, hctx, hst, hc', hst', hms]
  have hlevel : List.lookup "level" (fileLogEntry info) =
      some (.str (toUpperCase info.level)) := by
    rw [hshape]
    simp [List.lookup]
  have hmessage : List.lookup "message" (fileLogEntry info) =
      some (.str info.message) := by
    rw [hshape]
    simp [List.lookup]
  exact ⟨rfl, hshape, hlevel, hmessage⟩

/-- **C7.** A child facade created by `createChildLogger(x)` emits every
severity with context exactly `x`: the child is unaffected by the parent's
`currentContext` (creating it from a parent whose context was re-set gives
the identical child), and it shares the parent's Winston backend handle. -/
theorem c7_child_context_isolation (p : ReusableLoggerService)
    (x y message : String) (trace : TraceArg) (meta : List JVal) :
    ((p.createChildLogger x).log message meta).context = some x ∧
    ((p.createChildLogger x).error message trace meta).context = some x ∧
    ((p.createChildLogger x).warn message meta).context = some x ∧
    ((p.createChildLogger x).debug message meta).context = some x ∧
    ((p.createChildLogger x).verbose message meta).context = some x ∧
    (p.setContext y).createChildLogger x = p.createChildLogger x ∧
    (p.createChildLogger x).winstonLoggerInstance = p.logger := by
  refine ⟨rfl, ?_, rfl, rfl, rfl, rfl, rfl⟩
  cases trace with
  | undef => rfl
  | str t =>
    simp only [ReusableChildLogger.error]
    split <;> rfl
  | err e => rfl

/-- **C8.** `error(message, trace, ...)`: an `Error`-like trace contributes
its stack text (not its display message) as the event's `stack` detail; a
non-empty string trace is carried verbatim as the pre-formatted `trace`
detail instead; an absent or empty-string trace attaches no detail at
all. -/
theorem c8_error_trace_handling (s : ReusableLoggerService)
    (message : String) (context : Option String) (meta : List JVal) :
    (∀ e : JsError,
      (s.error message (.err e) context meta).stack = some e.stack ∧
      (s.error message (.err e) context meta).trace = none) ∧
    (∀ t : String, t ≠ "" →
      (s.error message (.str t) context meta).trace = some t ∧
      (s.error message (.str t) context meta).stack = none) ∧
    ((s.error message .undef context meta).stack = none ∧
      (s.error message .undef context meta).trace = none) ∧
    ((s.error message (.str "") context meta).stack = none ∧
      (s.error message (.str "") context meta).trace = none) := by
  refine ⟨fun e => ⟨rfl, rfl⟩, fun t ht => ?_, ⟨rfl, rfl⟩, ⟨rfl, rfl⟩⟩
  have hlen : 0 < t.length := by
    cases t with
    | mk data =>
      cases data with
      | nil => exact absurd rfl ht
      | cons c cs => simp [String.length]
  constructor <;> simp [ReusableLoggerService.error, hlen]

/-! ## Witnesses: the hypothesis-bearing theorems evaluated at concrete
configurations -/

/-- Witness for C1 (amended): a concrete production configuration with a
failing directory-ensure effect. -/
theorem c1_dir_failure_diagnostic_but_file_sinks_composed_witness :
    (createWinstonConfig mkdirFailsWorld
        { enableFile := some true, nodeEnv := some "production" }).1 =
      [mkdirFailedDiagnostic "logs"] ∧
    consoleFloors (createWinstonConfig mkdirFailsWorld
        { enableFile := some true, nodeEnv := some "production" }).2.transports
      = ["info"] ∧
    countFileSinks (createWinstonConfig mkdirFailsWorld
        { enableFile := some true, nodeEnv := some "production" }).2.transports
      = 4 := by
  have h := c1_dir_failure_diagnostic_but_file_sinks_composed mkdirFailsWorld
    { enableFile := some true, nodeEnv := some "production" } rfl rfl rfl
  refine ⟨by simpa [resolveOptions, jsOrString] using h.1,
    by simpa [resolveOptions, jsOrString] using h.2.1,
    by simpa [debugSinkCondition, resolveOptions, jsOrString] using h.2.2.1⟩

/-- Witness for C2: a production and a development configuration, both with
configured floor `debug`. -/
theorem c2_console_floor_production_forced_info_witness :
    consoleFloors (createWinstonConfig allOkWorld
        { level := some "debug", nodeEnv := some "production" }).2.transports
      = ["info"] ∧
    consoleFloors (createWinstonConfig allOkWorld
        { level := some "debug" }).2.transports = ["debug"] := by
  constructor
  · exact (c2_console_floor_production_forced_info allOkWorld
      { level := some "debug", nodeEnv := some "production" } rfl).1 rfl
  · have h := (c2_console_floor_production_forced_info allOkWorld
      { level := some "debug" } rfl).2 (by decide)
    simpa [resolveOptions, jsOrString] using h

/-- Witness for C3: floor `verbose` forces the debug sink even in
production. -/
theorem c3_debug_sink_presence_iff_witness :
    retentionsFor (pathJoin "logs" "debug-%DATE%.log")
        (createWinstonConfig allOkWorld
          { level := some "verbose", enableFile := some true,
            nodeEnv := some "production" }).2.transports = [10] := by
  have h := c3_debug_sink_presence_iff allOkWorld
    { level := some "verbose", enableFile := some true,
      nodeEnv := some "production" } rfl
  simpa [resolveOptions, jsOrString, jsOrInt] using h

/-- Witness for C4: configured `maxFiles = 7` gives an error tier retaining
`14` and a warn tier retaining `7`. -/
theorem c4_error_tier_double_retention_witness :
    retentionsFor (pathJoin "logs" "error-%DATE%.log")
        (createWinstonConfig allOkWorld
          { enableFile := some true, maxFiles := some 7 }).2.transports
      = [14] ∧
    retentionsFor (pathJoin "logs" "warn-%DATE%.log")
        (createWinstonConfig allOkWorld
          { enableFile := some true, maxFiles := some 7 }).2.transports
      = [7] := by
  have h := c4_error_tier_double_retention allOkWorld
    { enableFile := some true, maxFiles := some 7 } 7 rfl (by decide) rfl
  exact ⟨by simpa [resolveOptions, jsOrString] using h.1,
    by simpa [resolveOptions, jsOrString] using h.2.1⟩

/-- Witness for C6: a concrete info record with context, one metadata
field and a stack. -/
theorem c6_file_pipeline_json_shape_witness :
    List.lookup "level"
        (fileLogEntry
          { timestamp := "2024-01-01 00:00:00", level := "info",
            message := "hello", context := some "App",
            stack := some "Error: x",
            meta := [("requestId", JVal.str "r1")] })
      = some (.str "INFO") ∧
    List.lookup "message"
        (fileLogEntry
          { timestamp := "2024-01-01 00:00:00", level := "info",
            message := "hello", context := some "App",
            stack := some "Error: x",
            meta := [("requestId", JVal.str "r1")] })
      = some (.str "hello") := by
  have h := c6_file_pipeline_json_shape
    { timestamp := "2024-01-01 00:00:00", level := "info",
      message := "hello", context := some "App", stack := some "Error: x",
      meta := [("requestId", JVal.str "r1")] }
    (by decide) (by decide) (by decide)
  exact ⟨h.2.2.1, h.2.2.2⟩

/-- Witness for C8: the three trace shapes at a concrete service. -/
theorem c8_error_trace_handling_witness :
    ((ReusableLoggerService.mk 0 none).error "boom"
        (.err ⟨"Error", "display message", "stack trace text"⟩) none []).stack
      = some "stack trace text" ∧
    ((ReusableLoggerService.mk 0 none).error "boom"
        (.str "preformatted") none []).trace = some "preformatted" ∧
    ((ReusableLoggerService.mk 0 none).error "boom" .undef none []).stack
      = none := by
  have h := c8_error_trace_handling (ReusableLoggerService.mk 0 none)
    "boom" none []
  exact ⟨(h.1 ⟨"Error", "display message", "stack trace text"⟩).1,
    (h.2.1 "preformatted" (by decide)).1, h.2.2.1.1⟩

/-- Witness for C9 (amended): an absent `level` defaults, a present
non-falsy `level` is kept, a falsy `maxFiles = 0` defaults. -/
theorem c9_resolution_defaults_witness :
    (resolveOptions {}).logLevel = "info" ∧
    (resolveOptions { level := some "warn" }).logLevel = "warn" ∧
    (resolveOptions { maxFiles := some 0 }).maxFiles = 10 := by
  obtain ⟨h1, -, -, -, -, -, -, -, -, -, -, -, -, -, -, -, -, -, -, -, -,
    -, -, -⟩ := c9_resolution_defaults {}
  obtain ⟨-, -, -, -, -, -, -, -, -, h10, -, -, -, -, -, -, -, -, -, -, -,
    -, -, -⟩ := c9_resolution_defaults { level := some "warn" }
  obtain ⟨-, -, -, -, -, -, -, -, -, -, -, -, -, -, -, -, -, -, -, -, h21,
    -, -, -⟩ := c9_resolution_defaults { maxFiles := some 0 }
  exact ⟨h1 rfl, h10 "warn" (by decide) rfl, h21 rfl⟩

/-- Witness for C10: a falsy `logDir` resolves to `"logs"`, and a
file-enabled configuration on a healthy filesystem composes its file
sinks with no diagnostics. -/
theorem c10_falsy_defaulting_and_unreachable_skip_witness :
    (resolveOptions { logDir := some "" }).logDir = "logs" ∧
    (createWinstonConfig allOkWorld { enableFile := some true }).1 = [] ∧
    4 ≤ countFileSinks (createWinstonConfig allOkWorld
        { enableFile := some true }).2.transports := by
  obtain ⟨-, h2, -, -, -, -, -⟩ :=
    c10_falsy_defaulting_and_unreachable_skip allOkWorld
      { logDir := some "" }
  obtain ⟨-, -, -, -, -, -, h7⟩ :=
    c10_falsy_defaulting_and_unreachable_skip allOkWorld
      { enableFile := some true }
  have h := h7 rfl
  exact ⟨h2 rfl,
    by simpa [ensureLogDirectory, allOkWorld] using h.1, h.2⟩

end NestjsCommons
